import Mathlib

/-!
Shallow embedding of the system bring-up layer of the Pimax-OpenXR runtime
(src/pimax-openxr/system.cpp) and of the format / OpenGL-context helpers
(src/pimax-openxr/utils.h), together with theorems checking the natural
language specification against the embedded code.

Machine integers appear only as handles, identifiers and configuration
values that never overflow, so they are modelled as `Nat` / `Int`.
Floating point quantities (tangents, angles, heights) are modelled as `ℚ`;
the transcendental primitives (quaternion angle, arctangent) are supplied
by the environment as abstract functions, since the code only consumes
their results.
-/

namespace PimaxOpenXR

/-- Result codes of the PVR SDK used by the code: `pvr_success`,
`pvr_rpc_failed` (service not running) and any other non-success code. -/
inductive pvrResult where
  | success
  | rpc_failed
  | other (code : Nat)
deriving DecidableEq

/-- The OpenXR result codes returned by the three entry points modelled here. -/
inductive XrResult where
  | success
  | errorValidationFailure
  | errorHandleInvalid
  | errorSystemInvalid
  | errorFormFactorUnsupported
  | errorFormFactorUnavailable
  | errorViewConfigurationTypeUnsupported
  | errorSizeInsufficient
deriving DecidableEq

/-- OpenXR structure type tags checked by the code. -/
inductive XrStructureType where
  | typeSystemGetInfo
  | typeSystemProperties
  | other (n : Nat)
deriving DecidableEq

/-- OpenXR form factors. -/
inductive XrFormFactor where
  | headMountedDisplay
  | other (n : Nat)
deriving DecidableEq

/-- OpenXR view configuration types. -/
inductive XrViewConfigurationType where
  | primaryStereo
  | other (n : Nat)
deriving DecidableEq

/-- OpenXR environment blend modes. -/
inductive XrEnvironmentBlendMode where
  | OPAQUE
  | other (n : Nat)
deriving DecidableEq

/-- The eye tracking backend selected during device-change derivation
(`EyeTracking` enum of the runtime). -/
inductive EyeTracking where
  | none
  | simulated
  | pvr
  | aSeeVR
deriving DecidableEq

/-- Quaternion components (floats in the code, modelled as `ℚ`). -/
structure Quatq where
  x : ℚ
  y : ℚ
  z : ℚ
  w : ℚ
deriving DecidableEq

/-- 3-vector components. -/
structure V3q where
  x : ℚ
  y : ℚ
  z : ℚ
deriving DecidableEq

/-- `pvrPosef`: orientation and position. -/
structure pvrPosef where
  orientQ : Quatq
  position : V3q
deriving DecidableEq

/-- `pvrFovPort`: the four field-of-view tangents reported by PVR. -/
structure pvrFovPort where
  upTan : ℚ
  downTan : ℚ
  leftTan : ℚ
  rightTan : ℚ
deriving DecidableEq

/-- The part of `pvrEyeRenderInfo` consumed by the code: per-eye FOV
tangents and the HMD-to-eye pose. -/
structure pvrEyeRenderInfo where
  fov : pvrFovPort
  hmdToEyePose : pvrPosef
deriving DecidableEq

/-- `XrFovf`: four signed angles, derived by arctangent from the tangents. -/
structure XrFovf where
  angleLeft : ℚ
  angleRight : ℚ
  angleUp : ℚ
  angleDown : ℚ
deriving DecidableEq

/-- The `pvrHmdStatus` fields consumed by `xrGetSystem`. -/
structure pvrHmdStatus where
  serviceReady : Bool
  hmdPresent : Bool
  hmdMounted : Bool
  isVisible : Bool
  displayLost : Bool
  shouldQuit : Bool
deriving DecidableEq

/-- The `pvrHmdInfo` fields consumed by the code (`m_cachedHmdInfo`). -/
structure pvrHmdInfo where
  vendorId : Nat
  productId : Nat
  manufacturer : String
  productName : String
  serialNumber : String
  firmwareMinor : Nat
  firmwareMajor : Nat
  resolutionW : Nat
  resolutionH : Nat
deriving DecidableEq

/-- `m_cachedHmdInfo = {}`: the zero-initialised `pvrHmdInfo`. -/
def emptyHmdInfo : pvrHmdInfo :=
  { vendorId := 0, productId := 0, manufacturer := "", productName := "",
    serialNumber := "", firmwareMinor := 0, firmwareMajor := 0,
    resolutionW := 0, resolutionH := 0 }

/-- Durable per-session PVR configuration set through the session handle:
the `view_rotation_fix` integer config and the tracking origin type. -/
structure PvrSessionState where
  viewRotationFix : Int
  trackingOriginEyeLevel : Bool
deriving DecidableEq

/-- The runtime-instance members of `OpenXrRuntime` read or written by the
modelled entry points. -/
structure RuntimeState where
  instanceCreated : Bool
  systemCreated : Bool
  hasEyeGazeExt : Bool
  hasHandTrackingExt : Bool
  pvrSession : Option PvrSessionState
  cachedHmdInfo : pvrHmdInfo
  cachedEyeInfoL : pvrEyeRenderInfo
  cachedEyeInfoR : pvrEyeRenderInfo
  cachedEyeFovL : XrFovf
  cachedEyeFovR : XrFovf
  floorHeight : ℚ
  useParallelProjection : Bool
  isEyeTrackingAvailable : Bool
  eyeTrackingType : EyeTracking
  fovLevel : Int
deriving DecidableEq

/-- The environment of one `xrGetSystem` call: outcomes and payloads of
every PVR remote call and settings lookup the call can make.  Transcendental
primitives (`Quatf.Angle`, `atan`) are abstract function fields. -/
structure PvrWorld where
  createSessionResult : pvrResult
  getHmdStatusResult : pvrResult
  status : pvrHmdStatus
  getHmdInfoResult : pvrResult
  hmdInfo : pvrHmdInfo
  getEyeRenderInfoResult : pvrResult
  setIntConfigResult : pvrResult
  setTrackingOriginResult : pvrResult
  eyeInfoNormalL : pvrEyeRenderInfo
  eyeInfoNormalR : pvrEyeRenderInfo
  eyeInfoParallelL : pvrEyeRenderInfo
  eyeInfoParallelR : pvrEyeRenderInfo
  eyeHeight : ℚ
  settingAllowEyeTracking : Option Int
  settingDebugEyeTracker : Option Int
  settingForcePP : Option Int
  steamvrUseNativeFov : Int
  fovLevelCfg : Int
  droolonInitOk : Bool
  cantFn : Quatq → Quatq → ℚ
  atanFn : ℚ → ℚ

/-- `CHECK_PVRCMD`: a non-success PVR result aborts the call (throws). -/
def check (r : pvrResult) : Except pvrResult Unit :=
  if r = pvrResult.success then Except.ok () else Except.error r

/-- `pvr_getEyeRenderInfo`: the geometry PVR reports depends on the
session's current `view_rotation_fix` configuration. -/
def getEyeRenderInfo (w : PvrWorld) (sess : PvrSessionState) (right : Bool) :
    pvrEyeRenderInfo :=
  if sess.viewRotationFix ≠ 0 then
    (if right then w.eyeInfoParallelR else w.eyeInfoParallelL)
  else
    (if right then w.eyeInfoNormalR else w.eyeInfoNormalL)

/-- Per-eye FOV angles from tangents (system.cpp lines 180-183):
`angleDown = -atan(DownTan)`, `angleUp = atan(UpTan)`,
`angleLeft = -atan(LeftTan)`, `angleRight = atan(RightTan)`. -/
def fovFromTans (atanFn : ℚ → ℚ) (f : pvrFovPort) : XrFovf :=
  { angleLeft := -(atanFn f.leftTan), angleRight := atanFn f.rightTan,
    angleUp := atanFn f.upTan, angleDown := -(atanFn f.downTan) }

/-- The parallel-projection decision (system.cpp lines 164-166):
`m_useParallelProjection = cantingAngle > 0.0001f &&
 getSetting("force_parallel_projection_state")
   .value_or(!pvr_getIntConfig(m_pvrSession, "steamvr_use_native_fov", 0))`.
`forcePP` is the optional override setting (an integer read as a boolean),
`steamvrUseNativeFov` the vendor native-FOV integer config. -/
def useParallelProjectionOf (cantingAngle : ℚ) (forcePP : Option Bool)
    (steamvrUseNativeFov : Int) : Bool :=
  decide (cantingAngle > 1/10000) &&
    forcePP.getD (decide (steamvrUseNativeFov = 0))

/-- `OpenXrRuntime::ensurePvrSession` (system.cpp lines 366-381).
`Except.error` models a `CHECK_PVRCMD` abort; `.ok (none, s)` models
`return false` with no session (the `pvr_rpc_failed` soft failure);
`.ok (some sess, s')` models `return true` with the live session. -/
def ensurePvrSession (w : PvrWorld) (s : RuntimeState) :
    Except pvrResult (Option PvrSessionState × RuntimeState) :=
  match s.pvrSession with
  | some sess => Except.ok (some sess, s)
  | none =>
    match w.createSessionResult with
    | pvrResult.rpc_failed => Except.ok (none, s)
    | pvrResult.other c => Except.error (pvrResult.other c)
    | pvrResult.success =>
      if w.setIntConfigResult ≠ pvrResult.success then
        Except.error w.setIntConfigResult
      else if w.setTrackingOriginResult ≠ pvrResult.success then
        Except.error w.setTrackingOriginResult
      else
        let sess : PvrSessionState :=
          { viewRotationFix := if s.useParallelProjection then 1 else 0,
            trackingOriginEyeLevel := true }
        Except.ok (some sess, { s with pvrSession := some sess })

/-- The device-change derivation of `xrGetSystem` (system.cpp lines
119-194), entered when the reported serial number differs from the cached
one.  The caller has already stored the fresh `hmdInfo` into
`s.cachedHmdInfo` (line 119). -/
def deriveOnDeviceChange (w : PvrWorld) (sess0 : PvrSessionState)
    (s : RuntimeState) : Except pvrResult RuntimeState :=
  -- pvr_setIntConfig(m_pvrSession, "view_rotation_fix", 0)
  match check w.setIntConfigResult with
  | Except.error e => Except.error e
  | Except.ok _ =>
    let sess1 : PvrSessionState := { sess0 with viewRotationFix := 0 }
    -- m_isEyeTrackingAvailable = getSetting("allow_eye_tracking").value_or(false)
    let consentB : Bool :=
      (w.settingAllowEyeTracking.map (fun v => decide (v ≠ 0))).getD false
    -- eye tracker detection
    let ett : EyeTracking :=
      if s.hasEyeGazeExt then
        if (w.settingDebugEyeTracker.map (fun v => decide (v ≠ 0))).getD false then
          EyeTracking.simulated
        else if s.cachedHmdInfo.vendorId = 0x34A4 ∧ s.cachedHmdInfo.productId = 0x0012 then
          EyeTracking.pvr
        else if w.droolonInitOk then
          EyeTracking.aSeeVR
        else
          EyeTracking.none
      else EyeTracking.none
    let available : Bool := if ett = EyeTracking.none then false else consentB
    -- pvr_getEyeRenderInfo for both eyes (each CHECK_PVRCMD'ed)
    match check w.getEyeRenderInfoResult with
    | Except.error e => Except.error e
    | Except.ok _ =>
      let eyeL := getEyeRenderInfo w sess1 false
      let eyeR := getEyeRenderInfo w sess1 true
      let floorH := w.eyeHeight
      -- cantingAngle = Quatf{left}.Angle(right) / 2
      let cantingAngle :=
        w.cantFn eyeL.hmdToEyePose.orientQ eyeR.hmdToEyePose.orientQ / 2
      let upp := useParallelProjectionOf cantingAngle
        (w.settingForcePP.map (fun v => decide (v ≠ 0))) w.steamvrUseNativeFov
      let afterPP : Except pvrResult (PvrSessionState × pvrEyeRenderInfo × pvrEyeRenderInfo) :=
        if upp then
          -- pvr_setIntConfig(m_pvrSession, "view_rotation_fix", 1); re-query eyes
          match check w.setIntConfigResult with
          | Except.error e => Except.error e
          | Except.ok _ =>
            let sess2 : PvrSessionState := { sess1 with viewRotationFix := 1 }
            match check w.getEyeRenderInfoResult with
            | Except.error e => Except.error e
            | Except.ok _ =>
              Except.ok (sess2, getEyeRenderInfo w sess2 false, getEyeRenderInfo w sess2 true)
        else Except.ok (sess1, eyeL, eyeR)
      match afterPP with
      | Except.error e => Except.error e
      | Except.ok (sess2, eyeL2, eyeR2) =>
        let fovLvl := w.fovLevelCfg
        let fovL := fovFromTans w.atanFn eyeL2.fov
        let fovR := fovFromTans w.atanFn eyeR2.fov
        -- pvr_setTrackingOriginType(m_pvrSession, pvrTrackingOrigin_EyeLevel)
        match check w.setTrackingOriginResult with
        | Except.error e => Except.error e
        | Except.ok _ =>
          Except.ok { s with
            pvrSession := some { sess2 with trackingOriginEyeLevel := true },
            isEyeTrackingAvailable := available,
            eyeTrackingType := ett,
            cachedEyeInfoL := eyeL2,
            cachedEyeInfoR := eyeR2,
            floorHeight := floorH,
            useParallelProjection := upp,
            fovLevel := fovLvl,
            cachedEyeFovL := fovL,
            cachedEyeFovR := fovR }

/-- Closed form of the state produced by a successful
`deriveOnDeviceChange` (proved equivalent below): since
`pvr_getEyeRenderInfo` depends only on the session's `view_rotation_fix`
value, the geometry queried is the normal geometry before the
parallel-projection decision and the parallel geometry after enabling it,
and the final session carries the decided flag and the eye-level origin. -/
def deriveResult (w : PvrWorld) (s : RuntimeState) : RuntimeState :=
  let consentB : Bool :=
    (w.settingAllowEyeTracking.map (fun v => decide (v ≠ 0))).getD false
  let ett : EyeTracking :=
    if s.hasEyeGazeExt then
      if (w.settingDebugEyeTracker.map (fun v => decide (v ≠ 0))).getD false then
        EyeTracking.simulated
      else if s.cachedHmdInfo.vendorId = 0x34A4 ∧ s.cachedHmdInfo.productId = 0x0012 then
        EyeTracking.pvr
      else if w.droolonInitOk then
        EyeTracking.aSeeVR
      else
        EyeTracking.none
    else EyeTracking.none
  let available : Bool := if ett = EyeTracking.none then false else consentB
  let cant :=
    w.cantFn w.eyeInfoNormalL.hmdToEyePose.orientQ
      w.eyeInfoNormalR.hmdToEyePose.orientQ / 2
  let upp := useParallelProjectionOf cant
    (w.settingForcePP.map (fun v => decide (v ≠ 0))) w.steamvrUseNativeFov
  let eyeL2 := if upp then w.eyeInfoParallelL else w.eyeInfoNormalL
  let eyeR2 := if upp then w.eyeInfoParallelR else w.eyeInfoNormalR
  { s with
    pvrSession := some { viewRotationFix := if upp then 1 else 0,
                         trackingOriginEyeLevel := true },
    isEyeTrackingAvailable := available,
    eyeTrackingType := ett,
    cachedEyeInfoL := eyeL2,
    cachedEyeInfoR := eyeR2,
    floorHeight := w.eyeHeight,
    useParallelProjection := upp,
    fovLevel := w.fovLevelCfg,
    cachedEyeFovL := fovFromTans w.atanFn eyeL2.fov,
    cachedEyeFovR := fovFromTans w.atanFn eyeR2.fov }

/-- Output of `xrGetSystem`: the returned result code, the written
`*systemId` (if written), whether the device-change derivation ran on this
call (the branch at system.cpp line 118), and the final runtime state. -/
structure GetSystemOut where
  result : XrResult
  systemId : Option Nat
  didDerive : Bool
  state : RuntimeState
deriving DecidableEq

/-- The tail of `xrGetSystem` after the status/should-quit block (system.cpp
lines 79-202): ensure the session, (re-)check the HMD status, query HMD
info, run the device-change derivation if the serial changed, and succeed. -/
def xrGetSystemAfterStatus (w : PvrWorld) (s : RuntimeState)
    (isStatusValid : Bool) : Except pvrResult GetSystemOut :=
  match ensurePvrSession w s with
  | Except.error e => Except.error e
  | Except.ok (none, s2) =>
    Except.ok ⟨XrResult.errorFormFactorUnavailable, none, false,
               { s2 with cachedHmdInfo := emptyHmdInfo }⟩
  | Except.ok (some sess, s2) =>
    if ¬isStatusValid ∧ w.getHmdStatusResult ≠ pvrResult.success then
      Except.error w.getHmdStatusResult
    else if ¬(w.status.serviceReady ∧ w.status.hmdPresent) then
      Except.ok ⟨XrResult.errorFormFactorUnavailable, none, false,
                 { s2 with cachedHmdInfo := emptyHmdInfo }⟩
    else if w.getHmdInfoResult ≠ pvrResult.success then
      Except.error w.getHmdInfoResult
    else if s2.cachedHmdInfo.serialNumber = w.hmdInfo.serialNumber then
      Except.ok ⟨XrResult.success, some 1, false, { s2 with systemCreated := true }⟩
    else
      match deriveOnDeviceChange w sess { s2 with cachedHmdInfo := w.hmdInfo } with
      | Except.error e => Except.error e
      | Except.ok s3 =>
        Except.ok ⟨XrResult.success, some 1, true, { s3 with systemCreated := true }⟩

/-- Input structure of `xrGetSystem` (`XrSystemGetInfo`). -/
structure XrSystemGetInfo where
  type : XrStructureType
  formFactor : XrFormFactor
deriving DecidableEq

/-- `OpenXrRuntime::xrGetSystem` (system.cpp lines 36-203).
`Except.error` models a `CHECK_PVRCMD` abort. -/
def xrGetSystem (w : PvrWorld) (s0 : RuntimeState) (inst : Nat)
    (gi : XrSystemGetInfo) : Except pvrResult GetSystemOut :=
  if gi.type ≠ XrStructureType.typeSystemGetInfo then
    Except.ok ⟨XrResult.errorValidationFailure, none, false, s0⟩
  else if ¬(s0.instanceCreated ∧ inst = 1) then
    Except.ok ⟨XrResult.errorHandleInvalid, none, false, s0⟩
  else if gi.formFactor ≠ XrFormFactor.headMountedDisplay then
    Except.ok ⟨XrResult.errorFormFactorUnsupported, none, false, s0⟩
  else
    match s0.pvrSession with
    | some _ =>
      if w.getHmdStatusResult ≠ pvrResult.success then
        Except.error w.getHmdStatusResult
      else if w.status.shouldQuit then
        -- PVR Home took over: destroy the session and proceed without one.
        xrGetSystemAfterStatus w { s0 with pvrSession := none } false
      else
        xrGetSystemAfterStatus w s0 true
    | none => xrGetSystemAfterStatus w s0 false

/-- The cached capability snapshot: every `m_...` cache member replaced by
the device-change derivation (identity, per-eye geometry, per-eye FOV,
projection mode, eye tracking mode and availability, fov level, floor
height).  The canting angle is not stored by the code; it is a function of
the cached eye orientations. -/
def snapshotOf (s : RuntimeState) :
    pvrHmdInfo × pvrEyeRenderInfo × pvrEyeRenderInfo × XrFovf × XrFovf ×
      Bool × EyeTracking × Bool × Int × ℚ :=
  (s.cachedHmdInfo, s.cachedEyeInfoL, s.cachedEyeInfoR, s.cachedEyeFovL,
   s.cachedEyeFovR, s.useParallelProjection, s.eyeTrackingType,
   s.isEyeTrackingAvailable, s.fovLevel, s.floorHeight)

/-- The non-identity members of the cached capability snapshot: everything
in `snapshotOf` except `cachedHmdInfo` (definitionally, the second
component of `snapshotOf`). -/
def retainedOf (s : RuntimeState) :
    pvrEyeRenderInfo × pvrEyeRenderInfo × XrFovf × XrFovf ×
      Bool × EyeTracking × Bool × Int × ℚ :=
  (s.cachedEyeInfoL, s.cachedEyeInfoR, s.cachedEyeFovL, s.cachedEyeFovR,
   s.useParallelProjection, s.eyeTrackingType, s.isEyeTrackingAvailable,
   s.fovLevel, s.floorHeight)

/-- A sequence of `xrGetSystem` calls, one per world in the list; the state
is threaded through successful calls (an aborted call leaves it unchanged). -/
def runGetSystemSeq (inst : Nat) (gi : XrSystemGetInfo) :
    List PvrWorld → RuntimeState →
      List (Except pvrResult GetSystemOut) × RuntimeState
  | [], s => ([], s)
  | w :: ws, s =>
    match xrGetSystem w s inst gi with
    | Except.ok g =>
      let rest := runGetSystemSeq inst gi ws g.state
      (Except.ok g :: rest.1, rest.2)
    | Except.error e =>
      let rest := runGetSystemSeq inst gi ws s
      (Except.error e :: rest.1, rest.2)

/-- Input header of `xrGetSystemProperties` (`XrSystemProperties`): the
structure type tag, and whether the `next` chain contains a
hand-tracking-properties / eye-gaze-interaction-properties structure. -/
structure XrSystemPropertiesIn where
  type : XrStructureType
  nextHasHandTracking : Bool
  nextHasEyeGaze : Bool
deriving DecidableEq

/-- The fields `xrGetSystemProperties` writes into the output structure
(and into the chained extension structures, when present and enabled). -/
structure SystemPropertiesOut where
  vendorId : Nat
  systemName : String
  systemId : Nat
  positionTracking : Bool
  orientationTracking : Bool
  maxLayerCount : Nat
  maxSwapchainImageWidth : Nat
  maxSwapchainImageHeight : Nat
  supportsHandTracking : Option Bool
  supportsEyeGazeInteraction : Option Bool
deriving DecidableEq

/-- `pvrMaxLayerCount` from the PVR SDK headers (16). -/
def pvrMaxLayerCount : Nat := 16

/-- `OpenXrRuntime::xrGetSystemProperties` (system.cpp lines 206-287). -/
def xrGetSystemProperties (s : RuntimeState) (inst : Nat) (systemId : Nat)
    (props : XrSystemPropertiesIn) : XrResult × Option SystemPropertiesOut :=
  if props.type ≠ XrStructureType.typeSystemProperties then
    (XrResult.errorValidationFailure, none)
  else if ¬(s.instanceCreated ∧ inst = 1) then
    (XrResult.errorHandleInvalid, none)
  else if ¬(s.systemCreated ∧ systemId = 1) then
    (XrResult.errorSystemInvalid, none)
  else
    (XrResult.success, some
      { vendorId := s.cachedHmdInfo.vendorId,
        systemName := s.cachedHmdInfo.productName,
        systemId := systemId,
        positionTracking := true,
        orientationTracking := true,
        maxLayerCount := pvrMaxLayerCount,
        maxSwapchainImageWidth := 16384,
        maxSwapchainImageHeight := 16384,
        supportsHandTracking :=
          if s.hasHandTrackingExt ∧ props.nextHasHandTracking then some true else none,
        supportsEyeGazeInteraction :=
          if s.hasEyeGazeExt ∧ props.nextHasEyeGaze then
            some s.isEyeTrackingAvailable
          else none })

/-- The static `blendModes` array of `xrEnumerateEnvironmentBlendModes`:
only `XR_ENVIRONMENT_BLEND_MODE_OPAQUE`. -/
def blendModes : List XrEnvironmentBlendMode := [XrEnvironmentBlendMode.OPAQUE]

/-- Output of `xrEnumerateEnvironmentBlendModes`: the result code, the
written `*environmentBlendModeCountOutput` (if written), and the elements
written into the caller's array. -/
structure EnumBlendOut where
  result : XrResult
  countOutput : Option Nat
  written : List XrEnvironmentBlendMode
deriving DecidableEq

/-- `OpenXrRuntime::xrEnumerateEnvironmentBlendModes` (system.cpp lines
290-337).  `capacityInput` is a `uint32_t`, modelled as `Nat`;
`bufferProvided` models a non-null `environmentBlendModes` pointer. -/
def xrEnumerateEnvironmentBlendModes (s : RuntimeState) (inst : Nat)
    (systemId : Nat) (viewConfigurationType : XrViewConfigurationType)
    (capacityInput : Nat) (bufferProvided : Bool) : EnumBlendOut :=
  if ¬(s.instanceCreated ∧ inst = 1) then
    ⟨XrResult.errorHandleInvalid, none, []⟩
  else if ¬(s.systemCreated ∧ systemId = 1) then
    ⟨XrResult.errorSystemInvalid, none, []⟩
  else if viewConfigurationType ≠ XrViewConfigurationType.primaryStereo then
    ⟨XrResult.errorViewConfigurationTypeUnsupported, none, []⟩
  else if capacityInput ≠ 0 ∧ capacityInput < blendModes.length then
    ⟨XrResult.errorSizeInsufficient, none, []⟩
  else
    ⟨XrResult.success, some blendModes.length,
     if capacityInput ≠ 0 ∧ bufferProvided then blendModes else []⟩

/-- The `DXGI_FORMAT` values appearing in the format tables of utils.h;
every other value is collapsed into `other` (the `default:` case). -/
inductive DXGI_FORMAT where
  | R8G8B8A8_UNORM
  | R8G8B8A8_UNORM_SRGB
  | B8G8R8A8_UNORM
  | B8G8R8A8_UNORM_SRGB
  | B8G8R8X8_UNORM
  | B8G8R8X8_UNORM_SRGB
  | R16G16B16A16_FLOAT
  | D16_UNORM
  | D24_UNORM_S8_UINT
  | D32_FLOAT
  | D32_FLOAT_S8X24_UINT
  | UNKNOWN
  | other (n : Nat)
deriving DecidableEq

/-- The `pvrTextureFormat` values appearing in the format tables of
utils.h, with `other` for the remaining enum values. -/
inductive pvrTextureFormat where
  | R8G8B8A8_UNORM
  | R8G8B8A8_UNORM_SRGB
  | B8G8R8A8_UNORM
  | B8G8R8A8_UNORM_SRGB
  | B8G8R8X8_UNORM
  | B8G8R8X8_UNORM_SRGB
  | R16G16B16A16_FLOAT
  | D16_UNORM
  | D24_UNORM_S8_UINT
  | D32_FLOAT
  | D32_FLOAT_S8X24_UINT
  | UNKNOWN
  | other (n : Nat)
deriving DecidableEq

/-- `isSRGBFormat` (utils.h lines 512-521). -/
def isSRGBFormat (format : DXGI_FORMAT) : Bool :=
  match format with
  | DXGI_FORMAT.R8G8B8A8_UNORM_SRGB => true
  | DXGI_FORMAT.B8G8R8A8_UNORM_SRGB => true
  | DXGI_FORMAT.B8G8R8X8_UNORM_SRGB => true
  | _ => false

/-- `dxgiToPvrTextureFormat` (utils.h lines 523-550). -/
def dxgiToPvrTextureFormat (format : DXGI_FORMAT) : pvrTextureFormat :=
  match format with
  | DXGI_FORMAT.R8G8B8A8_UNORM => pvrTextureFormat.R8G8B8A8_UNORM
  | DXGI_FORMAT.R8G8B8A8_UNORM_SRGB => pvrTextureFormat.R8G8B8A8_UNORM_SRGB
  | DXGI_FORMAT.B8G8R8A8_UNORM => pvrTextureFormat.B8G8R8A8_UNORM
  | DXGI_FORMAT.B8G8R8A8_UNORM_SRGB => pvrTextureFormat.B8G8R8A8_UNORM_SRGB
  | DXGI_FORMAT.B8G8R8X8_UNORM => pvrTextureFormat.B8G8R8X8_UNORM
  | DXGI_FORMAT.B8G8R8X8_UNORM_SRGB => pvrTextureFormat.B8G8R8X8_UNORM_SRGB
  | DXGI_FORMAT.R16G16B16A16_FLOAT => pvrTextureFormat.R16G16B16A16_FLOAT
  | DXGI_FORMAT.D16_UNORM => pvrTextureFormat.D16_UNORM
  | DXGI_FORMAT.D24_UNORM_S8_UINT => pvrTextureFormat.D24_UNORM_S8_UINT
  | DXGI_FORMAT.D32_FLOAT => pvrTextureFormat.D32_FLOAT
  | DXGI_FORMAT.D32_FLOAT_S8X24_UINT => pvrTextureFormat.D32_FLOAT_S8X24_UINT
  | _ => pvrTextureFormat.UNKNOWN

/-- `pvrToDxgiTextureFormat` (utils.h lines 552-579). -/
def pvrToDxgiTextureFormat (format : pvrTextureFormat) : DXGI_FORMAT :=
  match format with
  | pvrTextureFormat.R8G8B8A8_UNORM => DXGI_FORMAT.R8G8B8A8_UNORM
  | pvrTextureFormat.R8G8B8A8_UNORM_SRGB => DXGI_FORMAT.R8G8B8A8_UNORM_SRGB
  | pvrTextureFormat.B8G8R8A8_UNORM => DXGI_FORMAT.B8G8R8A8_UNORM
  | pvrTextureFormat.B8G8R8A8_UNORM_SRGB => DXGI_FORMAT.B8G8R8A8_UNORM_SRGB
  | pvrTextureFormat.B8G8R8X8_UNORM => DXGI_FORMAT.B8G8R8X8_UNORM
  | pvrTextureFormat.B8G8R8X8_UNORM_SRGB => DXGI_FORMAT.B8G8R8X8_UNORM_SRGB
  | pvrTextureFormat.R16G16B16A16_FLOAT => DXGI_FORMAT.R16G16B16A16_FLOAT
  | pvrTextureFormat.D16_UNORM => DXGI_FORMAT.D16_UNORM
  | pvrTextureFormat.D24_UNORM_S8_UINT => DXGI_FORMAT.D24_UNORM_S8_UINT
  | pvrTextureFormat.D32_FLOAT => DXGI_FORMAT.D32_FLOAT
  | pvrTextureFormat.D32_FLOAT_S8X24_UINT => DXGI_FORMAT.D32_FLOAT_S8X24_UINT
  | _ => DXGI_FORMAT.UNKNOWN

/-- `GlContext` (utils.h lines 346-351): a device context / rendering
context pair and a validity flag.  Handles are modelled as `Nat`. -/
structure GlContext where
  glDC : Nat
  glRC : Nat
  valid : Bool
deriving DecidableEq

/-- The ambient OpenGL thread state: the current device context and
rendering context of the calling thread, plus the pending error queue of
each rendering context (`glGetError` reads the current context's queue). -/
structure GlState where
  currentDC : Nat
  currentRC : Nat
  errorQueue : Nat → List Nat

/-- `wglMakeCurrent`. -/
def wglMakeCurrent (dc rc : Nat) (s : GlState) : GlState :=
  { s with currentDC := dc, currentRC := rc }

/-- `glGetError`: pops the next pending error of the current rendering
context, or returns `GL_NO_ERROR` (0) if none is pending. -/
def glGetError (s : GlState) : Nat × GlState :=
  match s.errorQueue s.currentRC with
  | [] => (0, s)
  | e :: rest =>
    (e, { s with errorQueue := fun rc =>
            if rc = s.currentRC then rest else s.errorQueue rc })

/-- The effect of the reset loop
`while (glGetError() != GL_NO_ERROR);` on a pending-error list: errors are
popped until `GL_NO_ERROR` is returned (a stored 0 terminates the loop,
an empty queue yields 0 and terminates it). -/
def drainList : List Nat → List Nat
  | [] => []
  | e :: rest => if e = 0 then rest else drainList rest

/-- The reset loop applied to the current context's queue. -/
def drainErrors (s : GlState) : GlState :=
  { s with errorQueue := fun rc =>
      if rc = s.currentRC then drainList (s.errorQueue s.currentRC)
      else s.errorQueue rc }

/-- The members captured by `GlContextSwitch` at construction:
`m_valid`, `m_glDC`, `m_glRC` (the latter two left zero when invalid,
matching their never-read uninitialised state). -/
structure GlSaved where
  valid : Bool
  dc : Nat
  rc : Nat
deriving DecidableEq

/-- The `GlContextSwitch` constructor (utils.h lines 355-366): if the
target context is valid, capture the current DC/RC, activate the target,
and drain its pending error state. -/
def glContextSwitchInit (ctx : GlContext) (s : GlState) : GlState × GlSaved :=
  if ctx.valid then
    let saved : GlSaved := ⟨true, s.currentDC, s.currentRC⟩
    (drainErrors (wglMakeCurrent ctx.glDC ctx.glRC s), saved)
  else
    (s, ⟨false, 0, 0⟩)

/-- The `GlContextSwitch` destructor (utils.h lines 368-376): if valid,
read the pending error, restore the previous DC/RC, and report a failure
(`CHECK_MSG`) when the error state was not clean.  The returned
`Option Nat` is the reported failure. -/
def glContextSwitchFini (saved : GlSaved) (s : GlState) : GlState × Option Nat :=
  if saved.valid then
    let er := glGetError s
    (wglMakeCurrent saved.dc saved.rc er.2,
     if er.1 = 0 then none else some er.1)
  else
    (s, none)

/-- A scope protected by a `GlContextSwitch`: construction, an arbitrary
body (which may itself raise an error, modelled by the returned `Bool`),
then destruction — which, as in C++, runs also when the body raised. -/
def withGlContextSwitch (ctx : GlContext) (body : GlState → GlState × Bool)
    (s : GlState) : GlState × Bool × Option Nat :=
  let is := glContextSwitchInit ctx s
  let bs := body is.1
  let fs := glContextSwitchFini is.2 bs.1
  (fs.1, bs.2, fs.2)

/-! Concrete values used by witnesses. -/

/-- A concrete eye render info. -/
def eyeZero : pvrEyeRenderInfo :=
  { fov := { upTan := 1, downTan := 1, leftTan := 1, rightTan := 1 },
    hmdToEyePose := { orientQ := ⟨0, 0, 0, 1⟩, position := ⟨0, 0, 0⟩ } }

/-- A second concrete eye render info, distinguishable from `eyeZero`. -/
def eyeAlt : pvrEyeRenderInfo :=
  { fov := { upTan := 2, downTan := 2, leftTan := 2, rightTan := 2 },
    hmdToEyePose := { orientQ := ⟨0, 1, 0, 1⟩, position := ⟨0, 0, 0⟩ } }

/-- A concrete zero FOV. -/
def fovZero : XrFovf :=
  { angleLeft := 0, angleRight := 0, angleUp := 0, angleDown := 0 }

/-- A concrete healthy environment: service ready, device present, every
remote call succeeding, serial number "A". -/
def demoWorld : PvrWorld :=
  { createSessionResult := pvrResult.success,
    getHmdStatusResult := pvrResult.success,
    status := { serviceReady := true, hmdPresent := true, hmdMounted := true,
                isVisible := true, displayLost := false, shouldQuit := false },
    getHmdInfoResult := pvrResult.success,
    hmdInfo := { emptyHmdInfo with serialNumber := "A", productName := "Demo" },
    getEyeRenderInfoResult := pvrResult.success,
    setIntConfigResult := pvrResult.success,
    setTrackingOriginResult := pvrResult.success,
    eyeInfoNormalL := eyeZero, eyeInfoNormalR := eyeZero,
    eyeInfoParallelL := eyeAlt, eyeInfoParallelR := eyeAlt,
    eyeHeight := 0,
    settingAllowEyeTracking := none, settingDebugEyeTracker := none,
    settingForcePP := none, steamvrUseNativeFov := 0, fovLevelCfg := 0,
    droolonInitOk := false,
    cantFn := fun _ _ => 0, atanFn := fun q => q }

/-- A concrete initial runtime state: instance created, nothing cached. -/
def initState : RuntimeState :=
  { instanceCreated := true, systemCreated := false, hasEyeGazeExt := false,
    hasHandTrackingExt := false, pvrSession := none,
    cachedHmdInfo := emptyHmdInfo,
    cachedEyeInfoL := eyeZero, cachedEyeInfoR := eyeZero,
    cachedEyeFovL := fovZero, cachedEyeFovR := fovZero, floorHeight := 0,
    useParallelProjection := false, isEyeTrackingAvailable := false,
    eyeTrackingType := EyeTracking.none, fovLevel := 0 }

/-- `initState` with the instance flag cleared: every instance handle is
invalid against it. -/
def noInstanceState : RuntimeState := { initState with instanceCreated := false }

/-- A valid `XrSystemGetInfo`. -/
def giGood : XrSystemGetInfo :=
  { type := XrStructureType.typeSystemGetInfo,
    formFactor := XrFormFactor.headMountedDisplay }

/-- A concrete runtime state whose cache already matches `demoWorld`. -/
def s0W : RuntimeState :=
  { initState with cachedHmdInfo := demoWorld.hmdInfo, systemCreated := true }

/-- The session `ensurePvrSession` creates from `s0W`. -/
def sess0W : PvrSessionState :=
  { viewRotationFix := 0, trackingOriginEyeLevel := true }

/-- `s0W` after session creation. -/
def s1W : RuntimeState := { s0W with pvrSession := some sess0W }

/-- The output of a cache-hit `xrGetSystem` call from `s0W` against
`demoWorld`. -/
def g1W : GetSystemOut :=
  { result := XrResult.success, systemId := some 1, didDerive := false,
    state := s1W }

/-- `demoWorld` with the should-quit flag raised in the reported status. -/
def wQuitW : PvrWorld :=
  { demoWorld with status := { demoWorld.status with shouldQuit := true } }

/-- `demoWorld` with the compositor service unreachable:
`pvr_createSession` fails with `pvr_rpc_failed`. -/
def wRpcW : PvrWorld :=
  { demoWorld with createSessionResult := pvrResult.rpc_failed }

/-- The unavailable outcome of calling `xrGetSystem` from `initState`
against `wRpcW`. -/
def gUnavW : GetSystemOut :=
  { result := XrResult.errorFormFactorUnavailable, systemId := none,
    didDerive := false, state := initState }

/-- The zero-initialised `pvrEyeRenderInfo` (`m_cachedEyeInfo` before any
derivation). -/
def emptyEyeInfo : pvrEyeRenderInfo :=
  { fov := { upTan := 0, downTan := 0, leftTan := 0, rightTan := 0 },
    hmdToEyePose := { orientQ := ⟨0, 0, 0, 0⟩, position := ⟨0, 0, 0⟩ } }

/-- `s0W` with non-default cached eye geometry and fov level, as left by an
earlier device-change derivation. -/
def sStaleW : RuntimeState :=
  { s0W with cachedEyeInfoL := eyeAlt, fovLevel := 7 }

/-- `sStaleW` after the unavailable path cleared the cached identity. -/
def sStaleClearedW : RuntimeState :=
  { sStaleW with cachedHmdInfo := emptyHmdInfo }

/-- A concrete valid GL target context. -/
def glCtxW : GlContext := { glDC := 5, glRC := 7, valid := true }

/-- A concrete ambient GL state with two pending errors on context 7. -/
def glStateW : GlState :=
  { currentDC := 1, currentRC := 2,
    errorQueue := fun rc => if rc = 7 then [1280, 1281] else [] }

/-- A concrete protected body: switches the current context away and
raises an error. -/
def glBodyW : GlState → GlState × Bool :=
  fun st => (wglMakeCurrent 9 9 st, true)

/-! Theorems.  Helper lemmas shared by the claim theorems come first. -/

/-- A successful device-change derivation requires every checked PVR call
to succeed, and produces exactly the state `deriveResult`. -/
theorem deriveOnDeviceChange_ok (w : PvrWorld) (sess : PvrSessionState)
    (s s3 : RuntimeState) (h : deriveOnDeviceChange w sess s = Except.ok s3) :
    w.setIntConfigResult = pvrResult.success ∧
    w.getEyeRenderInfoResult = pvrResult.success ∧
    w.setTrackingOriginResult = pvrResult.success ∧
    s3 = deriveResult w s := by
  by_cases h1 : w.setIntConfigResult = pvrResult.success
  · by_cases h2 : w.getEyeRenderInfoResult = pvrResult.success
    · by_cases h3 : w.setTrackingOriginResult = pvrResult.success
      · refine ⟨h1, h2, h3, ?_⟩
        unfold deriveOnDeviceChange at h
        simp only [check, h1, h2, h3, if_pos rfl, reduceIte] at h
        by_cases hu : useParallelProjectionOf
            (w.cantFn
              (getEyeRenderInfo w { sess with viewRotationFix := 0 } false).hmdToEyePose.orientQ
              (getEyeRenderInfo w { sess with viewRotationFix := 0 } true).hmdToEyePose.orientQ / 2)
            (w.settingForcePP.map (fun v => decide (v ≠ 0))) w.steamvrUseNativeFov = true
        · simp only [getEyeRenderInfo] at h hu
          norm_num at h hu
          simp only [hu, if_true, reduceIte] at h
          cases h
          simp [deriveResult, getEyeRenderInfo, hu]
        · simp only [getEyeRenderInfo] at h hu
          norm_num at h hu
          simp only [hu, if_false, reduceIte] at h
          cases h
          simp [deriveResult, getEyeRenderInfo, hu]
      · exfalso
        unfold deriveOnDeviceChange at h
        simp only [check, h1, h2, reduceIte] at h
        split at h <;> simp_all [check]
    · exfalso
      unfold deriveOnDeviceChange at h
      simp only [check, h1, reduceIte] at h
      simp_all [check]
  · exfalso
    unfold deriveOnDeviceChange at h
    simp_all [check]

/-- Everything a successful `ensurePvrSession` guarantees: the capability
cache and snapshot are untouched, the returned option is the live session,
`none` is returned exactly for the `pvr_rpc_failed` soft failure on a
missing session, and a freshly created session carries the re-applied
parallel-projection flag and the eye-level tracking origin. -/
theorem ensurePvrSession_ok_spec (w : PvrWorld) (s : RuntimeState)
    (o : Option PvrSessionState) (s' : RuntimeState)
    (h : ensurePvrSession w s = Except.ok (o, s')) :
    s'.cachedHmdInfo = s.cachedHmdInfo ∧
    snapshotOf s' = snapshotOf s ∧
    s'.systemCreated = s.systemCreated ∧
    s'.pvrSession = o ∧
    (o = none ↔
      s.pvrSession = none ∧ w.createSessionResult = pvrResult.rpc_failed) ∧
    (s.pvrSession = none → o ≠ none →
      o = some { viewRotationFix := if s.useParallelProjection then 1 else 0,
                 trackingOriginEyeLevel := true }) := by
  unfold ensurePvrSession at h
  split at h
  · rename_i sess heq
    simp only [Except.ok.injEq, Prod.mk.injEq] at h
    obtain ⟨rfl, rfl⟩ := h
    simp [snapshotOf, heq]
  · rename_i heq
    split at h
    · simp only [Except.ok.injEq, Prod.mk.injEq] at h
      obtain ⟨rfl, rfl⟩ := h
      rename_i hres
      simp [snapshotOf, heq, hres]
    · exact absurd h (by simp)
    · rename_i hres
      split at h
      · exact absurd h (by simp)
      · split at h
        · exact absurd h (by simp)
        · simp only [Except.ok.injEq, Prod.mk.injEq] at h
          obtain ⟨rfl, rfl⟩ := h
          simp [snapshotOf, heq, hres]

/-- The `pvr_rpc_failed` and fatal outcomes of `ensurePvrSession` on a
missing session. -/
theorem ensurePvrSession_fail_spec (w : PvrWorld) (s : RuntimeState)
    (hnone : s.pvrSession = none) :
    (w.createSessionResult = pvrResult.rpc_failed →
      ensurePvrSession w s = Except.ok (none, s)) ∧
    (∀ c, w.createSessionResult = pvrResult.other c →
      ensurePvrSession w s = Except.error (pvrResult.other c)) := by
  constructor
  · intro hr
    simp [ensurePvrSession, hnone, hr]
  · intro c hr
    simp [ensurePvrSession, hnone, hr]

/-- On the cache-hit path (reported serial equal to the cached serial), a
successful `xrGetSystemAfterStatus` skips the derivation, returns system
id 1, and leaves the capability snapshot untouched. -/
theorem afterStatus_skip (w : PvrWorld) (s1 : RuntimeState) (b : Bool)
    (g : GetSystemOut) (hok : xrGetSystemAfterStatus w s1 b = Except.ok g)
    (hres : g.result = XrResult.success)
    (hser : w.hmdInfo.serialNumber = s1.cachedHmdInfo.serialNumber) :
    g.didDerive = false ∧ g.systemId = some 1 ∧
    g.state.cachedHmdInfo = s1.cachedHmdInfo ∧
    snapshotOf g.state = snapshotOf s1 ∧
    g.state.systemCreated = true := by
  unfold xrGetSystemAfterStatus at hok
  cases hens : ensurePvrSession w s1 with
  | error e =>
    rw [hens] at hok
    exact absurd hok (by simp)
  | ok pr =>
    obtain ⟨o, s2⟩ := pr
    rw [hens] at hok
    obtain ⟨hcache, hsnap, -, -, -, -⟩ := ensurePvrSession_ok_spec w s1 o s2 hens
    cases o with
    | none =>
      simp only [Except.ok.injEq] at hok
      rw [← hok] at hres
      exact absurd hres (by simp)
    | some sess =>
      simp only at hok
      split at hok
      · exact absurd hok (by simp)
      · split at hok
        · simp only [Except.ok.injEq] at hok
          rw [← hok] at hres
          exact absurd hres (by simp)
        · split at hok
          · exact absurd hok (by simp)
          · split at hok
            · simp only [Except.ok.injEq] at hok
              obtain rfl := hok
              refine ⟨rfl, rfl, hcache, ?_, rfl⟩
              rw [← hsnap]
              simp [snapshotOf]
            · rename_i hne
              rw [hcache, ← hser] at hne
              exact absurd rfl hne

/-- A successful `xrGetSystem` call whose reported serial number matches
the cached one skips the derivation, returns system id 1, and leaves the
capability snapshot untouched. -/
theorem getSystem_skip (w : PvrWorld) (s : RuntimeState) (inst : Nat)
    (gi : XrSystemGetInfo) (g : GetSystemOut)
    (hok : xrGetSystem w s inst gi = Except.ok g)
    (hres : g.result = XrResult.success)
    (hser : w.hmdInfo.serialNumber = s.cachedHmdInfo.serialNumber) :
    g.didDerive = false ∧ g.systemId = some 1 ∧
    g.state.cachedHmdInfo = s.cachedHmdInfo ∧
    snapshotOf g.state = snapshotOf s := by
  unfold xrGetSystem at hok
  split at hok
  · simp only [Except.ok.injEq] at hok
    rw [← hok] at hres
    exact absurd hres (by simp)
  · split at hok
    · simp only [Except.ok.injEq] at hok
      rw [← hok] at hres
      exact absurd hres (by simp)
    · split at hok
      · simp only [Except.ok.injEq] at hok
        rw [← hok] at hres
        exact absurd hres (by simp)
      · split at hok
        · rename_i sess heq
          split at hok
          · exact absurd hok (by simp)
          · split at hok
            · have h := afterStatus_skip w { s with pvrSession := none } false
                g hok hres hser
              exact ⟨h.1, h.2.1, h.2.2.1, h.2.2.2.1⟩
            · have h := afterStatus_skip w s true g hok hres hser
              exact ⟨h.1, h.2.1, h.2.2.1, h.2.2.2.1⟩
        · have h := afterStatus_skip w s false g hok hres hser
          exact ⟨h.1, h.2.1, h.2.2.1, h.2.2.2.1⟩

/-- A successful `xrGetSystemAfterStatus` starting with no session: a
fresh session was created with the cached parallel-projection flag
re-applied and the eye-level origin, and if the derivation ran, the cached
geometry and identity come from the current environment. -/
theorem afterStatus_fresh (w : PvrWorld) (s1 : RuntimeState) (b : Bool)
    (g : GetSystemOut) (hnone : s1.pvrSession = none)
    (hok : xrGetSystemAfterStatus w s1 b = Except.ok g)
    (hres : g.result = XrResult.success) :
    (g.didDerive = false →
      g.state.pvrSession = some
        { viewRotationFix := if s1.useParallelProjection then 1 else 0,
          trackingOriginEyeLevel := true }) ∧
    (g.didDerive = true →
      g.state.cachedEyeInfoL
          = (if g.state.useParallelProjection then w.eyeInfoParallelL
             else w.eyeInfoNormalL) ∧
      g.state.cachedEyeInfoR
          = (if g.state.useParallelProjection then w.eyeInfoParallelR
             else w.eyeInfoNormalR) ∧
      g.state.cachedHmdInfo = w.hmdInfo) := by
  unfold xrGetSystemAfterStatus at hok
  cases hens : ensurePvrSession w s1 with
  | error e =>
    rw [hens] at hok
    exact absurd hok (by simp)
  | ok pr =>
    obtain ⟨o, s2⟩ := pr
    rw [hens] at hok
    obtain ⟨-, -, -, hsess, -, hfresh⟩ := ensurePvrSession_ok_spec w s1 o s2 hens
    cases o with
    | none =>
      simp only [Except.ok.injEq] at hok
      rw [← hok] at hres
      exact absurd hres (by simp)
    | some sess =>
      have hsessval := hfresh hnone (by simp)
      simp only [Option.some.injEq] at hsessval
      simp only at hok
      split at hok
      · exact absurd hok (by simp)
      · split at hok
        · simp only [Except.ok.injEq] at hok
          rw [← hok] at hres
          exact absurd hres (by simp)
        · split at hok
          · exact absurd hok (by simp)
          · split at hok
            · simp only [Except.ok.injEq] at hok
              obtain rfl := hok
              constructor
              · intro _
                rw [show ({ s2 with systemCreated := true } : RuntimeState).pvrSession
                      = s2.pvrSession from rfl, hsess, hsessval]
              · intro hcontra
                simp at hcontra
            · cases hder : deriveOnDeviceChange w sess
                  { s2 with cachedHmdInfo := w.hmdInfo } with
              | error e =>
                rw [hder] at hok
                exact absurd hok (by simp)
              | ok s3 =>
                rw [hder] at hok
                simp only [Except.ok.injEq] at hok
                obtain rfl := hok
                obtain ⟨-, -, -, h4⟩ := deriveOnDeviceChange_ok w sess _ s3 hder
                subst h4
                constructor
                · intro hcontra
                  simp at hcontra
                · intro _
                  simp [deriveResult]

/-- `xrGetSystemAfterStatus` returns the form-factor-unavailable result
exactly when session creation soft-fails (`pvr_rpc_failed` with no
session) or the status is not both service-ready and device-present;
in these cases the cached identity is cleared while every other snapshot
member is retained; a fatal session-creation failure aborts the call
instead. -/
theorem afterStatus_unavailable (w : PvrWorld) (s1 : RuntimeState) (b : Bool)
    (hstat : w.getHmdStatusResult = pvrResult.success) :
    (∀ g, xrGetSystemAfterStatus w s1 b = Except.ok g →
      ((g.result = XrResult.errorFormFactorUnavailable ↔
        ((s1.pvrSession = none ∧
          w.createSessionResult = pvrResult.rpc_failed) ∨
         ¬(w.status.serviceReady ∧ w.status.hmdPresent))) ∧
       (g.result = XrResult.errorFormFactorUnavailable →
        g.state.cachedHmdInfo = emptyHmdInfo ∧
        retainedOf g.state = retainedOf s1))) ∧
    (∀ c, s1.pvrSession = none → w.createSessionResult = pvrResult.other c →
      xrGetSystemAfterStatus w s1 b = Except.error (pvrResult.other c)) := by
  constructor
  · intro g hok
    unfold xrGetSystemAfterStatus at hok
    cases hens : ensurePvrSession w s1 with
    | error e =>
      rw [hens] at hok
      exact absurd hok (by simp)
    | ok pr =>
      obtain ⟨o, s2⟩ := pr
      rw [hens] at hok
      obtain ⟨-, hsnap, -, -, hiff, -⟩ := ensurePvrSession_ok_spec w s1 o s2 hens
      have hret : retainedOf s2 = retainedOf s1 := congrArg Prod.snd hsnap
      cases o with
      | none =>
        simp only [Except.ok.injEq] at hok
        obtain rfl := hok
        exact ⟨⟨fun _ => Or.inl (hiff.mp rfl), fun _ => rfl⟩,
               fun _ => ⟨rfl, hret⟩⟩
      | some sess =>
        have hnotnone : ¬(s1.pvrSession = none ∧
            w.createSessionResult = pvrResult.rpc_failed) := by
          intro hcontra
          exact absurd (hiff.mpr hcontra) (by simp)
        simp only at hok
        split at hok
        · rename_i hcond
          exact absurd hstat hcond.2
        · split at hok
          · rename_i hbad
            simp only [Except.ok.injEq] at hok
            obtain rfl := hok
            exact ⟨⟨fun _ => Or.inr hbad, fun _ => rfl⟩,
                   fun _ => ⟨rfl, hret⟩⟩
          · rename_i hgood
            split at hok
            · exact absurd hok (by simp)
            · split at hok
              · simp only [Except.ok.injEq] at hok
                obtain rfl := hok
                refine ⟨⟨?_, ?_⟩, ?_⟩
                · intro hcontra
                  simp at hcontra
                · rintro (h1 | h2)
                  · exact absurd h1 hnotnone
                  · exact absurd h2 hgood
                · intro hcontra
                  simp at hcontra
              · cases hder : deriveOnDeviceChange w sess
                    { s2 with cachedHmdInfo := w.hmdInfo } with
                | error e =>
                  rw [hder] at hok
                  exact absurd hok (by simp)
                | ok s3 =>
                  rw [hder] at hok
                  simp only [Except.ok.injEq] at hok
                  obtain rfl := hok
                  refine ⟨⟨?_, ?_⟩, ?_⟩
                  · intro hcontra
                    simp at hcontra
                  · rintro (h1 | h2)
                    · exact absurd h1 hnotnone
                    · exact absurd h2 hgood
                  · intro hcontra
                    simp at hcontra
  · intro c hnone hc
    simp [xrGetSystemAfterStatus,
          (ensurePvrSession_fail_spec w s1 hnone).2 c hc]

/-! ### C1 — parallel-projection override -/

/-- Claim C1 counterexample: with the forced override setting present and
true but a canting angle of 0 (below the 0.0001 epsilon), the code derives
`parallelProjectionEnabled = false`, not the override value: the epsilon
test is conjoined with the override rather than bypassed by it
(system.cpp lines 164-166). -/
theorem c1_counterexample :
    useParallelProjectionOf 0 (some true) 0 = false ∧
      ¬useParallelProjectionOf 0 (some true) 0 = true := by
  refine ⟨?_, ?_⟩ <;> norm_num [useParallelProjectionOf]

/-- Claim C1 (amended): in the device-change derivation, when the forced
parallel-projection override setting is present, the derived value is the
conjunction of the canting-angle epsilon test with the override: it equals
the override whenever the canting angle exceeds 0.0001 rad, and is false
whenever the canting angle does not exceed the epsilon, regardless of the
override and of the native-FOV preference. -/
theorem c1_override_conjoined_with_epsilon (cant : ℚ) (b : Bool) (nfov : Int) :
    useParallelProjectionOf cant (some b) nfov
        = (decide (cant > 1/10000) && b) := by
  simp [useParallelProjectionOf]

/-! ### C2 — parallel projection without override -/

/-- Claim C2: with no override setting present, `parallelProjectionEnabled`
is true iff the canting angle exceeds 0.0001 rad and the
`steamvr_use_native_fov` preference is off (0); in particular canting 0
gives false and canting 0.01 with the preference off gives true; and the
value stored by a successful device-change derivation is exactly this
function of the canting angle (half the quaternion angle between the two
eye orientations queried with `view_rotation_fix` cleared), the override
setting, and the native-FOV preference. -/
theorem c2_no_override_epsilon_and_native_fov :
    (∀ (cant : ℚ) (nfov : Int),
      useParallelProjectionOf cant none nfov = true ↔
        (cant > 1/10000 ∧ nfov = 0)) ∧
    (∀ nfov : Int, useParallelProjectionOf 0 none nfov = false) ∧
    useParallelProjectionOf (1/100) none 0 = true ∧
    (∀ (w : PvrWorld) (sess : PvrSessionState) (s s3 : RuntimeState),
      deriveOnDeviceChange w sess s = Except.ok s3 →
      s3.useParallelProjection =
        useParallelProjectionOf
          (w.cantFn
            (getEyeRenderInfo w { sess with viewRotationFix := 0 } false).hmdToEyePose.orientQ
            (getEyeRenderInfo w { sess with viewRotationFix := 0 } true).hmdToEyePose.orientQ / 2)
          (w.settingForcePP.map (fun v => decide (v ≠ 0)))
          w.steamvrUseNativeFov) := by
  refine ⟨?_, ?_, ?_, ?_⟩
  · intro cant nfov
    simp [useParallelProjectionOf]
  · intro nfov
    norm_num [useParallelProjectionOf]
  · norm_num [useParallelProjectionOf]
  · intro w sess s s3 h
    obtain ⟨-, -, -, h4⟩ := deriveOnDeviceChange_ok w sess s s3 h
    subst h4
    simp [deriveResult, getEyeRenderInfo]

/-- Witness for C2: the concrete 0.01 rad canting with no override and
the native-FOV preference off yields true. -/
theorem c2_witness : useParallelProjectionOf (1/100) none 0 = true :=
  c2_no_override_epsilon_and_native_fov.2.2.1

/-! ### C3 — idempotence of the cache-hit path -/

/-- Claim C3: along any sequence of successful `xrGetSystem` calls in
which the hardware-reported serial number never differs from the cached
snapshot's serial number, the one-time derivation behind the serial
comparison is skipped on every call (in particular on every call after the
first), every call returns success with the constant system id 1, and the
cached capability snapshot is identical across all the calls. -/
theorem c3_cache_hit_idempotent (inst : Nat) (gi : XrSystemGetInfo)
    (ws : List PvrWorld) (s : RuntimeState)
    (hser : ∀ w ∈ ws, w.hmdInfo.serialNumber = s.cachedHmdInfo.serialNumber)
    (hsucc : ∀ o ∈ (runGetSystemSeq inst gi ws s).1,
      ∃ g, o = Except.ok g ∧ g.result = XrResult.success) :
    (∀ o ∈ (runGetSystemSeq inst gi ws s).1,
      ∃ g, o = Except.ok g ∧ g.result = XrResult.success ∧
        g.didDerive = false ∧ g.systemId = some 1 ∧
        snapshotOf g.state = snapshotOf s) ∧
    snapshotOf (runGetSystemSeq inst gi ws s).2 = snapshotOf s := by
  induction ws generalizing s with
  | nil => simp [runGetSystemSeq]
  | cons w ws ih =>
    have hserw : w.hmdInfo.serialNumber = s.cachedHmdInfo.serialNumber :=
      hser w (List.mem_cons_self w ws)
    cases hx : xrGetSystem w s inst gi with
    | error e =>
      exfalso
      have hmem : Except.error e ∈ (runGetSystemSeq inst gi (w :: ws) s).1 := by
        simp [runGetSystemSeq, hx]
      obtain ⟨g, hg, -⟩ := hsucc (Except.error e) hmem
      exact absurd hg (by simp)
    | ok g =>
      have hmemg : Except.ok g ∈ (runGetSystemSeq inst gi (w :: ws) s).1 := by
        simp [runGetSystemSeq, hx]
      obtain ⟨g2, hg2, hg2res⟩ := hsucc (Except.ok g) hmemg
      simp only [Except.ok.injEq] at hg2
      subst hg2
      have hskip := getSystem_skip w s inst gi g hx hg2res hserw
      obtain ⟨hderive, hid, hcache, hsnap⟩ := hskip
      have hser2 : ∀ w2 ∈ ws,
          w2.hmdInfo.serialNumber = g.state.cachedHmdInfo.serialNumber := by
        intro w2 hw2
        rw [hcache]
        exact hser w2 (List.mem_cons_of_mem w hw2)
      have hsucc2 : ∀ o ∈ (runGetSystemSeq inst gi ws g.state).1,
          ∃ g2, o = Except.ok g2 ∧ g2.result = XrResult.success := by
        intro o ho
        refine hsucc o ?_
        simp [runGetSystemSeq, hx]
        exact Or.inr ho
      obtain ⟨ihall, ihfinal⟩ := ih g.state hser2 hsucc2
      constructor
      · intro o ho
        simp only [runGetSystemSeq, hx, List.mem_cons] at ho
        rcases ho with rfl | ho
        · exact ⟨g, rfl, hg2res, hderive, hid, hsnap⟩
        · obtain ⟨g3, rfl, h1, h2, h3, h4⟩ := ihall o ho
          exact ⟨g3, rfl, h1, h2, h3, h4.trans hsnap⟩
      · have : (runGetSystemSeq inst gi (w :: ws) s).2
            = (runGetSystemSeq inst gi ws g.state).2 := by
          simp [runGetSystemSeq, hx]
        rw [this, ihfinal, hsnap]

/-- Witness for C3: two successive calls against the same healthy world
whose serial number matches the (already populated) cached serial; both
succeed with id 1, neither derives, and the snapshot is unchanged. -/
theorem c3_witness :
    Except.ok g1W ∈ (runGetSystemSeq 1 giGood [demoWorld, demoWorld] s0W).1 ∧
    g1W.result = XrResult.success ∧ g1W.didDerive = false ∧
    g1W.systemId = some 1 ∧ snapshotOf g1W.state = snapshotOf s0W := by
  have hrun : runGetSystemSeq 1 giGood [demoWorld, demoWorld] s0W
      = ([Except.ok g1W, Except.ok g1W], s1W) := rfl
  have hmem : Except.ok g1W
      ∈ (runGetSystemSeq 1 giGood [demoWorld, demoWorld] s0W).1 := by
    rw [hrun]
    exact List.mem_cons_self _ _
  have hser : ∀ w ∈ [demoWorld, demoWorld],
      w.hmdInfo.serialNumber = s0W.cachedHmdInfo.serialNumber := by
    intro w hw
    rcases List.mem_cons.mp hw with rfl | hw2
    · rfl
    · rcases List.mem_cons.mp hw2 with rfl | hw3
      · rfl
      · cases hw3
  have hsucc : ∀ o ∈ (runGetSystemSeq 1 giGood [demoWorld, demoWorld] s0W).1,
      ∃ g, o = Except.ok g ∧ g.result = XrResult.success := by
    intro o ho
    rw [hrun] at ho
    rcases List.mem_cons.mp ho with rfl | ho2
    · exact ⟨g1W, rfl, rfl⟩
    · rcases List.mem_cons.mp ho2 with rfl | ho3
      · exact ⟨g1W, rfl, rfl⟩
      · cases ho3
  obtain ⟨g, hg, h1, h2, h3, h4⟩ :=
    (c3_cache_hit_idempotent 1 giGood [demoWorld, demoWorld] s0W hser hsucc).1
      (Except.ok g1W) hmem
  simp only [Except.ok.injEq] at hg
  subst hg
  exact ⟨hmem, h1, h2, h3, h4⟩

/-! ### C4 — should-quit recovery -/

/-- Claim C4: a `xrGetSystem` call that passes the input checks and
observes the should-quit flag in the status of an existing session
destroys the session and behaves exactly as the same call starting with no
session (so the session is recreated and the status is re-queried on the
new session before use); on a successful outcome, the recreated session
carries the freshly re-applied parallel-projection flag (keeping any
reused same-device geometry consistent), and whenever the device-change
derivation ran, the cached identity and per-eye geometry come from the
current environment — matching the freshly re-applied projection mode —
not from any state cached before the transition. -/
theorem c4_should_quit_recovery (w : PvrWorld) (s0 : RuntimeState)
    (inst : Nat) (gi : XrSystemGetInfo) (sess : PvrSessionState)
    (ht : gi.type = XrStructureType.typeSystemGetInfo)
    (hic : s0.instanceCreated = true) (hi : inst = 1)
    (hf : gi.formFactor = XrFormFactor.headMountedDisplay)
    (hs : s0.pvrSession = some sess)
    (hstat : w.getHmdStatusResult = pvrResult.success)
    (hq : w.status.shouldQuit = true) :
    xrGetSystem w s0 inst gi
        = xrGetSystem w { s0 with pvrSession := none } inst gi ∧
    (∀ g, xrGetSystem w s0 inst gi = Except.ok g →
      g.result = XrResult.success →
      (g.didDerive = false →
        g.state.pvrSession = some
          { viewRotationFix := if s0.useParallelProjection then 1 else 0,
            trackingOriginEyeLevel := true }) ∧
      (g.didDerive = true →
        g.state.cachedEyeInfoL
            = (if g.state.useParallelProjection then w.eyeInfoParallelL
               else w.eyeInfoNormalL) ∧
        g.state.cachedEyeInfoR
            = (if g.state.useParallelProjection then w.eyeInfoParallelR
               else w.eyeInfoNormalR) ∧
        g.state.cachedHmdInfo = w.hmdInfo)) := by
  have hred : xrGetSystem w s0 inst gi
      = xrGetSystemAfterStatus w { s0 with pvrSession := none } false := by
    simp [xrGetSystem, ht, hf, hic, hi, hs, hstat, hq]
  constructor
  · rw [hred]
    simp [xrGetSystem, ht, hf, hic, hi]
  · intro g hok hres
    rw [hred] at hok
    exact afterStatus_fresh w { s0 with pvrSession := none } false g rfl hok hres

/-- Witness for C4: against a healthy world whose status raises
should-quit, from a state holding a session and a matching cache, the call
equals the session-less call and succeeds with the session recreated. -/
theorem c4_witness :
    xrGetSystem wQuitW s1W 1 giGood
        = xrGetSystem wQuitW { s1W with pvrSession := none } 1 giGood ∧
    g1W.state.pvrSession = some sess0W := by
  have h := c4_should_quit_recovery wQuitW s1W 1 giGood sess0W
    rfl rfl rfl rfl rfl rfl rfl
  refine ⟨h.1, ?_⟩
  have h2 := (h.2 g1W rfl rfl).1 rfl
  exact h2.trans rfl

/-! ### C5 — form-factor-unavailable outcomes -/

/-- Claim C5 (amended): for a `xrGetSystem` call that passes the input
checks (and whose status query, if any, succeeds), the
form-factor-unavailable result is returned exactly when session creation
soft-fails with the remote-call-failed code (the session being absent or
should-quit having just destroyed it) or the status is not both
service-ready and device-present; in these cases the cached identity
(`m_cachedHmdInfo`, the device-change cache key) is cleared to its
default value while every other cached snapshot member (eye geometry,
per-eye FOV, projection mode, eye-tracking mode and availability, fov
level, floor height) is left unchanged; any other non-success
session-creation result aborts the call instead of being reported as
unavailable. -/
theorem c5_unavailable_exact (w : PvrWorld) (s : RuntimeState) (inst : Nat)
    (gi : XrSystemGetInfo)
    (ht : gi.type = XrStructureType.typeSystemGetInfo)
    (hic : s.instanceCreated = true) (hi : inst = 1)
    (hf : gi.formFactor = XrFormFactor.headMountedDisplay)
    (hstat : w.getHmdStatusResult = pvrResult.success) :
    (∀ g, xrGetSystem w s inst gi = Except.ok g →
      ((g.result = XrResult.errorFormFactorUnavailable ↔
        (((s.pvrSession = none ∨ w.status.shouldQuit = true) ∧
          w.createSessionResult = pvrResult.rpc_failed) ∨
         ¬(w.status.serviceReady ∧ w.status.hmdPresent))) ∧
       (g.result = XrResult.errorFormFactorUnavailable →
        g.state.cachedHmdInfo = emptyHmdInfo ∧
        retainedOf g.state = retainedOf s))) ∧
    (∀ c, (s.pvrSession = none ∨ w.status.shouldQuit = true) →
      w.createSessionResult = pvrResult.other c →
      xrGetSystem w s inst gi = Except.error (pvrResult.other c)) := by
  cases hsn : s.pvrSession with
  | none =>
    have hred : xrGetSystem w s inst gi = xrGetSystemAfterStatus w s false := by
      simp [xrGetSystem, ht, hf, hic, hi, hsn]
    obtain ⟨h1, h2⟩ := afterStatus_unavailable w s false hstat
    constructor
    · intro g hok
      rw [hred] at hok
      obtain ⟨hiff, hclear⟩ := h1 g hok
      refine ⟨?_, hclear⟩
      rw [hiff]
      simp [hsn]
    · intro c hneed hc
      rw [hred]
      exact h2 c hsn hc
  | some sess =>
    cases hq : w.status.shouldQuit with
    | true =>
      have hred : xrGetSystem w s inst gi
          = xrGetSystemAfterStatus w { s with pvrSession := none } false := by
        simp [xrGetSystem, ht, hf, hic, hi, hsn, hstat, hq]
      obtain ⟨h1, h2⟩ :=
        afterStatus_unavailable w { s with pvrSession := none } false hstat
      constructor
      · intro g hok
        rw [hred] at hok
        obtain ⟨hiff, hclear⟩ := h1 g hok
        refine ⟨?_, hclear⟩
        rw [hiff]
        simp [hsn]
      · intro c hneed hc
        rw [hred]
        exact h2 c rfl hc
    | false =>
      have hred : xrGetSystem w s inst gi = xrGetSystemAfterStatus w s true := by
        simp [xrGetSystem, ht, hf, hic, hi, hsn, hstat, hq]
      obtain ⟨h1, -⟩ := afterStatus_unavailable w s true hstat
      constructor
      · intro g hok
        rw [hred] at hok
        obtain ⟨hiff, hclear⟩ := h1 g hok
        refine ⟨?_, hclear⟩
        rw [hiff]
        simp [hsn]
      · intro c hneed hc
        simp [hsn, hq] at hneed

/-- Claim C5 counterexample: a call that returns form-factor-unavailable
(service unreachable) from a state holding a previously derived snapshot
clears only the cached identity: the cached left-eye geometry keeps its
non-default value `eyeAlt` and the fov level keeps the non-default value
7, so the cached capability snapshot — which per the claims comprises
identity, eye geometry, fov, projection mode, eye-tracking mode and fov
level — is not cleared to its default/empty value. -/
theorem c5_counterexample :
    xrGetSystem wRpcW sStaleW 1 giGood
      = Except.ok { result := XrResult.errorFormFactorUnavailable,
                    systemId := none, didDerive := false,
                    state := sStaleClearedW } ∧
    sStaleClearedW.cachedEyeInfoL = eyeAlt ∧
    eyeAlt ≠ emptyEyeInfo ∧
    sStaleClearedW.fovLevel = 7 ∧
    (7 : Int) ≠ 0 := by
  refine ⟨rfl, rfl, ?_, rfl, by decide⟩
  intro h
  have h2 := congrArg (fun e => e.fov.upTan) h
  norm_num [eyeAlt, emptyEyeInfo] at h2

/-- Witness for (the amended) C5: with the service unreachable
(`pvr_rpc_failed`) and no session, the call reports
form-factor-unavailable, the cached identity is the default value, and
the remaining snapshot members are unchanged. -/
theorem c5_witness :
    gUnavW.result = XrResult.errorFormFactorUnavailable ∧
    gUnavW.state.cachedHmdInfo = emptyHmdInfo ∧
    retainedOf gUnavW.state = retainedOf initState := by
  have h := (c5_unavailable_exact wRpcW initState 1 giGood
    rfl rfl rfl rfl rfl).1 gUnavW rfl
  have hres : gUnavW.result = XrResult.errorFormFactorUnavailable :=
    h.1.mpr (Or.inl ⟨Or.inl rfl, rfl⟩)
  exact ⟨hres, h.2 hres⟩

/-! ### C7 — blend mode enumeration and the capacity convention -/

/-- Claim C7: past the handle, system and view-configuration checks,
`xrEnumerateEnvironmentBlendModes` supports exactly one mode (opaque) and
honors the capacity convention: capacity 0 sets the count output to 1 and
writes nothing; a nonzero capacity smaller than 1 fails with
size-insufficient and writes nothing (no unsigned capacity satisfies
this); capacity at least 1 with a buffer writes the opaque mode as the
single element and sets the count output to 1. -/
theorem c7_blend_mode_capacity_convention (s : RuntimeState)
    (inst sysId : Nat) (vct : XrViewConfigurationType)
    (hh : s.instanceCreated ∧ inst = 1) (hs : s.systemCreated ∧ sysId = 1)
    (hv : vct = XrViewConfigurationType.primaryStereo) :
    (∀ buf : Bool,
      xrEnumerateEnvironmentBlendModes s inst sysId vct 0 buf
        = ⟨XrResult.success, some 1, []⟩) ∧
    (∀ (cap : Nat) (buf : Bool), cap ≠ 0 → cap < 1 →
      xrEnumerateEnvironmentBlendModes s inst sysId vct cap buf
        = ⟨XrResult.errorSizeInsufficient, none, []⟩) ∧
    (∀ cap : Nat, 1 ≤ cap →
      xrEnumerateEnvironmentBlendModes s inst sysId vct cap true
        = ⟨XrResult.success, some 1, [XrEnvironmentBlendMode.OPAQUE]⟩) := by
  subst hv
  refine ⟨?_, ?_, ?_⟩
  · intro buf
    simp [xrEnumerateEnvironmentBlendModes, blendModes, hh, hs]
  · intro cap buf hne hlt
    omega
  · intro cap hcap
    have hne : cap ≠ 0 := by omega
    simp [xrEnumerateEnvironmentBlendModes, blendModes, hh, hs, hne]

/-- Witness for C7 at a concrete state and arguments. -/
theorem c7_witness :
    ((initState.instanceCreated ∧ 1 = 1) ∧
     ({ initState with systemCreated := true }.systemCreated = true)) ∧
    (xrEnumerateEnvironmentBlendModes { initState with systemCreated := true }
        1 1 XrViewConfigurationType.primaryStereo 0 false
      = ⟨XrResult.success, some 1, []⟩) ∧
    (xrEnumerateEnvironmentBlendModes { initState with systemCreated := true }
        1 1 XrViewConfigurationType.primaryStereo 4 true
      = ⟨XrResult.success, some 1, [XrEnvironmentBlendMode.OPAQUE]⟩) := by
  have h := c7_blend_mode_capacity_convention
    { initState with systemCreated := true } 1 1
    XrViewConfigurationType.primaryStereo
    (by constructor <;> rfl) (by constructor <;> rfl) rfl
  exact ⟨⟨⟨by rfl, rfl⟩, by rfl⟩, h.1 false, h.2.2 4 (by omega)⟩

/-! ### C10 — size-insufficient is unreachable in blend mode enumeration -/

/-- Claim C10: `xrEnumerateEnvironmentBlendModes` never returns the
size-insufficient error — its required count is 1 and the size-insufficient
branch needs a nonzero capacity strictly below 1, which no `Nat` (the model
of `uint32_t`) satisfies — and every call passing the handle, system and
view-configuration checks returns success. -/
theorem c10_size_insufficient_unreachable (s : RuntimeState)
    (inst sysId cap : Nat) (vct : XrViewConfigurationType) (buf : Bool) :
    (xrEnumerateEnvironmentBlendModes s inst sysId vct cap buf).result
        ≠ XrResult.errorSizeInsufficient ∧
    (s.instanceCreated ∧ inst = 1 → s.systemCreated ∧ sysId = 1 →
      vct = XrViewConfigurationType.primaryStereo →
      (xrEnumerateEnvironmentBlendModes s inst sysId vct cap buf).result
        = XrResult.success) := by
  constructor
  · unfold xrEnumerateEnvironmentBlendModes
    split
    · simp
    · split
      · simp
      · split
        · simp
        · split
          · rename_i hcond
            simp [blendModes] at hcond
          · simp
  · intro hh hs hv
    subst hv
    have hcap : ¬(cap ≠ 0 ∧ cap < blendModes.length) := by
      simp [blendModes]
    simp [xrEnumerateEnvironmentBlendModes, hh, hs, hcap]

/-- Witness for C10 at a concrete state and arguments. -/
theorem c10_witness :
    (xrEnumerateEnvironmentBlendModes { initState with systemCreated := true }
        1 1 XrViewConfigurationType.primaryStereo 0 false).result
        ≠ XrResult.errorSizeInsufficient ∧
    (xrEnumerateEnvironmentBlendModes { initState with systemCreated := true }
        1 1 XrViewConfigurationType.primaryStereo 0 false).result
        = XrResult.success := by
  have h := c10_size_insufficient_unreachable
    { initState with systemCreated := true } 1 1 0
    XrViewConfigurationType.primaryStereo false
  exact ⟨h.1, h.2 ⟨rfl, rfl⟩ ⟨rfl, rfl⟩ rfl⟩

/-! ### C8 — texture format round trip -/

/-- Claim C8: for every DXGI format that `dxgiToPvrTextureFormat` does not
map to the unknown sentinel, the round trip through
`pvrToDxgiTextureFormat` is the identity, and the sRGB (encoded color
space) classification is preserved by the round trip. -/
theorem c8_format_round_trip (f : DXGI_FORMAT)
    (h : dxgiToPvrTextureFormat f ≠ pvrTextureFormat.UNKNOWN) :
    pvrToDxgiTextureFormat (dxgiToPvrTextureFormat f) = f ∧
    (isSRGBFormat f = true ↔
      isSRGBFormat (pvrToDxgiTextureFormat (dxgiToPvrTextureFormat f)) = true) := by
  cases f <;>
    simp_all [dxgiToPvrTextureFormat, pvrToDxgiTextureFormat, isSRGBFormat]

/-- Witness for C8 at a concrete format (an sRGB one, so the color-space
preservation is exercised). -/
theorem c8_witness :
    pvrToDxgiTextureFormat (dxgiToPvrTextureFormat DXGI_FORMAT.R8G8B8A8_UNORM_SRGB)
        = DXGI_FORMAT.R8G8B8A8_UNORM_SRGB ∧
    (isSRGBFormat DXGI_FORMAT.R8G8B8A8_UNORM_SRGB = true ↔
      isSRGBFormat (pvrToDxgiTextureFormat
        (dxgiToPvrTextureFormat DXGI_FORMAT.R8G8B8A8_UNORM_SRGB)) = true) :=
  c8_format_round_trip DXGI_FORMAT.R8G8B8A8_UNORM_SRGB (by decide)

/-! ### C6 — order of the handle and structure-type checks -/

/-- Claim C6 counterexample: calling `xrGetSystem` with an invalid
instance handle (the instance flag is cleared and the handle is 0, not 1)
and a wrong structure-type tag returns `XR_ERROR_VALIDATION_FAILURE`, not
`XR_ERROR_HANDLE_INVALID`, and `xrGetSystemProperties` behaves the same:
the structure-type check runs before the handle check (system.cpp lines
37-48 and 209-218), contradicting the claim that the invalid-handle check
is always performed first. -/
theorem c6_counterexample :
    ¬(noInstanceState.instanceCreated ∧ (0 : Nat) = 1) ∧
    xrGetSystem demoWorld noInstanceState 0
        ⟨XrStructureType.other 0, XrFormFactor.headMountedDisplay⟩
      = Except.ok ⟨XrResult.errorValidationFailure, none, false, noInstanceState⟩ ∧
    xrGetSystemProperties noInstanceState 0 0 ⟨XrStructureType.other 0, false, false⟩
      = (XrResult.errorValidationFailure, none) := by
  refine ⟨?_, ?_, ?_⟩
  · simp [noInstanceState, initState]
  · rfl
  · rfl

/-- Claim C6 (amended): in `xrGetSystem` and `xrGetSystemProperties` the
structure-type-tag validation check is performed first and the
invalid-handle check immediately after it, before all remaining checks;
in `xrEnumerateEnvironmentBlendModes` (which takes no tagged structure)
the invalid-handle check is performed first. -/
theorem c6_check_order (w : PvrWorld) (s : RuntimeState)
    (inst sysId cap : Nat) (gi : XrSystemGetInfo)
    (props : XrSystemPropertiesIn) (vct : XrViewConfigurationType)
    (buf : Bool) :
    (gi.type ≠ XrStructureType.typeSystemGetInfo →
      xrGetSystem w s inst gi
        = Except.ok ⟨XrResult.errorValidationFailure, none, false, s⟩) ∧
    (gi.type = XrStructureType.typeSystemGetInfo →
      ¬(s.instanceCreated ∧ inst = 1) →
      xrGetSystem w s inst gi
        = Except.ok ⟨XrResult.errorHandleInvalid, none, false, s⟩) ∧
    (props.type ≠ XrStructureType.typeSystemProperties →
      xrGetSystemProperties s inst sysId props
        = (XrResult.errorValidationFailure, none)) ∧
    (props.type = XrStructureType.typeSystemProperties →
      ¬(s.instanceCreated ∧ inst = 1) →
      xrGetSystemProperties s inst sysId props
        = (XrResult.errorHandleInvalid, none)) ∧
    (¬(s.instanceCreated ∧ inst = 1) →
      xrEnumerateEnvironmentBlendModes s inst sysId vct cap buf
        = ⟨XrResult.errorHandleInvalid, none, []⟩) := by
  refine ⟨?_, ?_, ?_, ?_, ?_⟩
  · intro h
    simp [xrGetSystem, h]
  · intro h hh
    simp [xrGetSystem, h, hh]
  · intro h
    simp [xrGetSystemProperties, h]
  · intro h hh
    simp [xrGetSystemProperties, h, hh]
  · intro hh
    simp [xrEnumerateEnvironmentBlendModes, hh]

/-- Witness for the amended C6 at concrete inputs. -/
theorem c6_witness :
    xrGetSystem demoWorld noInstanceState 0 giGood
      = Except.ok ⟨XrResult.errorHandleInvalid, none, false, noInstanceState⟩ ∧
    xrGetSystemProperties noInstanceState 0 0
        ⟨XrStructureType.typeSystemProperties, false, false⟩
      = (XrResult.errorHandleInvalid, none) ∧
    xrEnumerateEnvironmentBlendModes noInstanceState 0 0
        XrViewConfigurationType.primaryStereo 0 false
      = ⟨XrResult.errorHandleInvalid, none, []⟩ := by
  have h := c6_check_order demoWorld noInstanceState 0 0 0 giGood
    ⟨XrStructureType.typeSystemProperties, false, false⟩
    XrViewConfigurationType.primaryStereo false
  have hbad : ¬(noInstanceState.instanceCreated ∧ (0 : Nat) = 1) := by
    simp [noInstanceState, initState]
  exact ⟨h.2.1 rfl hbad, h.2.2.2.1 rfl hbad, h.2.2.2.2 hbad⟩

/-! ### C9 — scoped GL context switch -/

/-- Claim C9: for a valid target context, the device and rendering
contexts current at construction are restored on every exit path of a
`GlContextSwitch` scope — whatever the protected body does, including
raising an error — the target's pending error state is drained at
construction, at exit the error state is read from the state before the
previous context is restored and a non-clean error is converted into a
reported failure (restoration happening in both cases); for an invalid
target, neither construction nor destruction changes the ambient state. -/
theorem c9_gl_context_switch (ctx : GlContext) (s : GlState)
    (body : GlState → GlState × Bool) (hv : ctx.valid = true) :
    ((withGlContextSwitch ctx body s).1.currentDC = s.currentDC ∧
     (withGlContextSwitch ctx body s).1.currentRC = s.currentRC) ∧
    ((glContextSwitchInit ctx s).1.currentDC = ctx.glDC ∧
     (glContextSwitchInit ctx s).1.currentRC = ctx.glRC ∧
     (glContextSwitchInit ctx s).1.errorQueue ctx.glRC
        = drainList (s.errorQueue ctx.glRC)) ∧
    (∀ (sv : GlSaved) (s2 : GlState), sv.valid = true →
      (glContextSwitchFini sv s2).2
          = (if (glGetError s2).1 = 0 then none else some (glGetError s2).1) ∧
      (glContextSwitchFini sv s2).1.currentDC = sv.dc ∧
      (glContextSwitchFini sv s2).1.currentRC = sv.rc) ∧
    (∀ (ctx2 : GlContext) (s2 : GlState), ctx2.valid = false →
      glContextSwitchInit ctx2 s2 = (s2, ⟨false, 0, 0⟩)) ∧
    (∀ (sv : GlSaved) (s2 : GlState), sv.valid = false →
      glContextSwitchFini sv s2 = (s2, none)) := by
  refine ⟨?_, ?_, ?_, ?_, ?_⟩
  · simp [withGlContextSwitch, glContextSwitchInit, glContextSwitchFini,
          wglMakeCurrent, hv]
  · simp [glContextSwitchInit, drainErrors, wglMakeCurrent, hv]
  · intro sv s2 hsv
    simp [glContextSwitchFini, wglMakeCurrent, hsv]
  · intro ctx2 s2 h2
    simp [glContextSwitchInit, h2]
  · intro sv s2 hsv
    simp [glContextSwitchFini, hsv]

/-- Witness for C9: a concrete valid context, a body that switches the
context away and raises; the ambient context is still restored, and the
two pending errors of the target were drained at construction. -/
theorem c9_witness :
    (withGlContextSwitch glCtxW glBodyW glStateW).1.currentDC = 1 ∧
    (withGlContextSwitch glCtxW glBodyW glStateW).1.currentRC = 2 ∧
    (glContextSwitchInit glCtxW glStateW).1.errorQueue 7 = [] := by
  have h := c9_gl_context_switch glCtxW glStateW glBodyW rfl
  refine ⟨h.1.1, h.1.2, ?_⟩
  have h2 := h.2.1.2.2
  rw [show glCtxW.glRC = 7 from rfl] at h2
  rw [h2]
  rfl

end PimaxOpenXR
